import Mathlib

/-!
Shallow embedding of the retry supervisor in src/botcity_aux/bot_runner.py.

The file models the two runner classes, BotRunnerMaestro and BotRunnerLocal.
Each run() call is a while-loop driving at most max_retries + 1 attempts of
the task function, reporting to external collaborators (BotCity Maestro
orchestrator, SharePoint file store, SQL log sink, Telegram notifications).
A run is modelled as a function of an environment that states, per loop
iteration, whether the task function raises and which collaborator calls
raise; the model returns the trace of collaborator calls made plus the
terminal outcome (normal return or propagated exception), mirroring Python
try/except/finally semantics.  The pure execution-time formatting helper
_get_execution_time is modelled over exact rationals standing for the
time.time() floats.
-/

namespace BotRunner

/-- Collaborator call sites visited by run(), named after the methods the
Python code calls.  The suffix S marks calls on the success path inside the
try block, the suffix F marks calls in the except handler / terminal-failure
path.  addLogFile is BotRunnerMaestro._add_log_file_into_maestro, invoked
from the finally clause (bot_runner.py lines 385-386). -/
inductive Site
  | listFoldersS
  | uploadFilesS
  | insertDbLog
  | finishTaskSuccess
  | sendMessageS
  | uploadDocumentS
  | maestroError
  | finishTaskFailed
  | sendMessageF
  | uploadDocumentF
  | listFoldersF
  | uploadFilesF
  | addLogFile
  deriving DecidableEq

/-- One observable event of a run: either the i-th invocation of the task
function (src.main.main via _execute_bot_task), or a collaborator call. -/
inductive Ev
  | task (i : Nat)
  | call (s : Site)
  deriving DecidableEq

/-- Exceptions flowing through run(): an error raised by the task function on
attempt i, or an error raised by a collaborator call at site s during
iteration i. -/
inductive Err
  | task (i : Nat)
  | collab (s : Site) (i : Nat)
  deriving DecidableEq

/-- The environment of a run: which task invocations raise and which
collaborator calls raise.  Indexing is by loop-iteration number (the value of
the Python local attempts at the top of the iteration). -/
structure Env where
  taskFails : Nat → Bool
  callFails : Nat → Site → Bool

/-- An environment in which no collaborator call ever raises (the task
function may still raise). -/
def Benign (env : Env) : Prop := ∀ i s, env.callFails i s = false

/-- Perform a sequence of collaborator calls in order, stopping at the first
one that raises (Python statement-sequence semantics).  Returns the events of
the calls actually made and the raised error, if any. -/
def callSeq (env : Env) (i : Nat) : List Site → List Ev × Option Err
  | [] => ([], none)
  | s :: rest =>
    if env.callFails i s then ([Ev.call s], some (Err.collab s i))
    else
      let p := callSeq env i rest
      (Ev.call s :: p.1, p.2)

/-- Collaborator calls on BotRunnerMaestro.run's success path after the task
function returns (bot_runner.py lines 322-343): sharepoint listing and
upload, database log insertion, finish_task SUCCESS, then the optional
Telegram notifications. -/
def maestroSuccessSites (useTelegram : Bool) : List Site :=
  [Site.listFoldersS, Site.uploadFilesS, Site.insertDbLog, Site.finishTaskSuccess] ++
    (if useTelegram then [Site.sendMessageS, Site.uploadDocumentS] else [])

/-- Collaborator calls at the top of BotRunnerMaestro.run's except handler
(bot_runner.py lines 353-372): maestro.error, finish_task FAILED, optional
Telegram notifications. -/
def maestroExceptSites (useTelegram : Bool) : List Site :=
  [Site.maestroError, Site.finishTaskFailed] ++
    (if useTelegram then [Site.sendMessageF, Site.uploadDocumentF] else [])

/-- Collaborator calls on BotRunnerLocal.run's success path (bot_runner.py
lines 628-641): sharepoint listing and upload, database log insertion,
optional Telegram notifications.  No finish_task call is made. -/
def localSuccessSites (useTelegram : Bool) : List Site :=
  [Site.listFoldersS, Site.uploadFilesS, Site.insertDbLog] ++
    (if useTelegram then [Site.sendMessageS, Site.uploadDocumentS] else [])

/-- Collaborator calls in BotRunnerLocal.run's except handler (bot_runner.py
lines 651-660): only the optional Telegram notifications. -/
def localExceptSites (useTelegram : Bool) : List Site :=
  if useTelegram then [Site.sendMessageF, Site.uploadDocumentF] else []

/-- The try block of one iteration of BotRunnerMaestro.run (lines 307-345):
invoke the task function; if it returns, perform the success-path
collaborator calls and reach the break statement (result none). -/
def tryBodyMaestro (useTelegram : Bool) (env : Env) (i : Nat) : List Ev × Option Err :=
  if env.taskFails i then ([Ev.task i], some (Err.task i))
  else
    let p := callSeq env i (maestroSuccessSites useTelegram)
    (Ev.task i :: p.1, p.2)

/-- Outcome of one loop iteration: the try body reached break; the except
handler completed normally so the loop retries; or an exception is in flight
leaving the loop. -/
inductive IterOut
  | broke
  | retry
  | raised (e : Err)
  deriving DecidableEq

/-- The except handler of BotRunnerMaestro.run (lines 347-383), entered with
the caught exception e during iteration i (so the Python local attempts is
i + 1 after the increment on line 348).  Performs maestro.error, finish_task
FAILED and optional Telegram calls; then, if attempts > max_retries, the
terminal sharepoint calls followed by re-raising e; otherwise retries.
An error raised by any of these collaborator calls aborts the handler and
becomes the in-flight exception. -/
def handlerMaestro (maxRetries : Nat) (useTelegram : Bool) (env : Env) (i : Nat)
    (e : Err) : List Ev × IterOut :=
  let p := callSeq env i (maestroExceptSites useTelegram)
  match p.2 with
  | some err => (p.1, IterOut.raised err)
  | none =>
    if maxRetries < i + 1 then
      let q := callSeq env i [Site.listFoldersF, Site.uploadFilesF]
      match q.2 with
      | some err => (p.1 ++ q.1, IterOut.raised err)
      | none => (p.1 ++ q.1, IterOut.raised e)
    else (p.1, IterOut.retry)

/-- One full iteration of BotRunnerMaestro.run's while body, including the
finally clause (lines 385-386): _add_log_file_into_maestro runs on every exit
path of the try statement, and if it raises, its error replaces any in-flight
exception (Python finally semantics). -/
def iterMaestro (maxRetries : Nat) (useTelegram : Bool) (env : Env) (i : Nat) :
    List Ev × IterOut :=
  let t := tryBodyMaestro useTelegram env i
  let h : List Ev × IterOut :=
    match t.2 with
    | none => ([], IterOut.broke)
    | some e => handlerMaestro maxRetries useTelegram env i e
  let out : IterOut :=
    if env.callFails i Site.addLogFile then IterOut.raised (Err.collab Site.addLogFile i)
    else h.2
  (t.1 ++ h.1 ++ [Ev.call Site.addLogFile], out)

/-- The while loop of BotRunnerMaestro.run (line 306: while attempts <=
max_retries), with i the current value of attempts and g the remaining fuel
maxRetries + 1 - i; g = 0 means the loop condition is false and run()
returns. -/
def runMaestroAux (maxRetries : Nat) (useTelegram : Bool) (env : Env) :
    Nat → Nat → List Ev × Except Err Unit
  | _, 0 => ([], Except.ok ())
  | i, g + 1 =>
    let p := iterMaestro maxRetries useTelegram env i
    match p.2 with
    | IterOut.broke => (p.1, Except.ok ())
    | IterOut.raised e => (p.1, Except.error e)
    | IterOut.retry =>
      let q := runMaestroAux maxRetries useTelegram env (i + 1) g
      (p.1 ++ q.1, q.2)

/-- BotRunnerMaestro.run (bot_runner.py lines 289-386): the attempts counter
starts at 0 and the loop runs while attempts <= max_retries.  Returns the
trace of task invocations and collaborator calls, and the terminal outcome. -/
def runMaestro (maxRetries : Nat) (useTelegram : Bool) (env : Env) :
    List Ev × Except Err Unit :=
  runMaestroAux maxRetries useTelegram env 0 (maxRetries + 1)

/-- The try block of one iteration of BotRunnerLocal.run (lines 615-643). -/
def tryBodyLocal (useTelegram : Bool) (env : Env) (i : Nat) : List Ev × Option Err :=
  if env.taskFails i then ([Ev.task i], some (Err.task i))
  else
    let p := callSeq env i (localSuccessSites useTelegram)
    (Ev.task i :: p.1, p.2)

/-- The except handler of BotRunnerLocal.run (lines 645-669): optional
Telegram calls, then re-raise when attempts > max_retries, else retry. -/
def handlerLocal (maxRetries : Nat) (useTelegram : Bool) (env : Env) (i : Nat)
    (e : Err) : List Ev × IterOut :=
  let p := callSeq env i (localExceptSites useTelegram)
  match p.2 with
  | some err => (p.1, IterOut.raised err)
  | none =>
    if maxRetries < i + 1 then (p.1, IterOut.raised e)
    else (p.1, IterOut.retry)

/-- One full iteration of BotRunnerLocal.run's while body.  There is no
finally clause in the Local variant. -/
def iterLocal (maxRetries : Nat) (useTelegram : Bool) (env : Env) (i : Nat) :
    List Ev × IterOut :=
  let t := tryBodyLocal useTelegram env i
  match t.2 with
  | none => (t.1, IterOut.broke)
  | some e =>
    let h := handlerLocal maxRetries useTelegram env i e
    (t.1 ++ h.1, h.2)

/-- The while loop of BotRunnerLocal.run (line 614). -/
def runLocalAux (maxRetries : Nat) (useTelegram : Bool) (env : Env) :
    Nat → Nat → List Ev × Except Err Unit
  | _, 0 => ([], Except.ok ())
  | i, g + 1 =>
    let p := iterLocal maxRetries useTelegram env i
    match p.2 with
    | IterOut.broke => (p.1, Except.ok ())
    | IterOut.raised e => (p.1, Except.error e)
    | IterOut.retry =>
      let q := runLocalAux maxRetries useTelegram env (i + 1) g
      (p.1 ++ q.1, q.2)

/-- BotRunnerLocal.run (bot_runner.py lines 597-669). -/
def runLocal (maxRetries : Nat) (useTelegram : Bool) (env : Env) :
    List Ev × Except Err Unit :=
  runLocalAux maxRetries useTelegram env 0 (maxRetries + 1)

/-- Is this event a task-function invocation? -/
def isTaskEv : Ev → Bool
  | Ev.task _ => true
  | Ev.call _ => false

/-- Number of task-function invocations in a trace. -/
def countTask (evs : List Ev) : Nat := evs.countP isTaskEv

/-- Number of collaborator calls at site s in a trace. -/
def countSite (s : Site) (evs : List Ev) : Nat :=
  evs.countP (fun e => decide (e = Ev.call s))

/-- Python falsiness of an Optional[str] value: None and the empty string are
falsy (the test not telegram_group on lines 90 and 466). -/
def strOptFalsy : Option String → Bool
  | none => true
  | some s => s.isEmpty

/-- Configuration error raised by the constructors. -/
inductive InitErr
  | valueError
  deriving DecidableEq

/-- The runner state produced by a successful construction, restricted to the
fields the claims are about. -/
structure RunnerConfig where
  useTelegram : Bool
  telegramGroup : Option String
  maxRetries : Nat
  deriving DecidableEq

/-- The telegram-validation fragment of BotRunnerMaestro.__init__ (lines
86-96) and BotRunnerLocal.__init__ (lines 462-472), which are identical:
when use_telegram is true and telegram_group is falsy (None or empty), a
ValueError is raised and no runner object is produced, so run() cannot be
reached.  The earlier collaborator setup (Maestro SDK, SharePoint
credentials) performs no task-function invocation and is assumed not to
raise. -/
def initRunner (useTelegram : Bool) (telegramGroup : Option String)
    (maxRetries : Nat) : Except InitErr RunnerConfig :=
  if useTelegram then
    if strOptFalsy telegramGroup then Except.error InitErr.valueError
    else Except.ok ⟨true, telegramGroup, maxRetries⟩
  else Except.ok ⟨false, none, maxRetries⟩

/-- Python int() truncation toward zero of a rational (the expression
int(end_time - self.start_time) on lines 190 and 513, with time.time()
values modelled as exact rationals). -/
def pyTrunc (q : ℚ) : Int := Int.tdiv q.num (Int.ofNat q.den)

/-- Python format(n, "02"): left-pad the decimal representation with zeros to
a minimum width of 2 (the sign counts toward the width). -/
def fmt02 (n : Int) : String :=
  let s := toString n
  if s.length < 2 then "0" ++ s else s

/-- The formatting core of _get_execution_time (lines 192-196 and 515-519):
divmod chains on the elapsed seconds (Python divmod is floor division) and
zero-padded DD:HH:MM:SS formatting. -/
def execTimeFormat (elapsedSeconds : Int) : String :=
  let days := Int.fdiv elapsedSeconds 86400
  let r1 := Int.fmod elapsedSeconds 86400
  let hours := Int.fdiv r1 3600
  let r2 := Int.fmod r1 3600
  let minutes := Int.fdiv r2 60
  let seconds := Int.fmod r2 60
  fmt02 days ++ ":" ++ fmt02 hours ++ ":" ++ fmt02 minutes ++ ":" ++ fmt02 seconds

/-- _get_execution_time (bot_runner.py lines 179-197 and 502-520, identical
in both classes): returns the sentinel string when start_time is None,
otherwise the DD:HH:MM:SS rendering of the truncated elapsed seconds. -/
def getExecutionTime (startTime : Option ℚ) (endTime : ℚ) : String :=
  match startTime with
  | none => "Execution time not available"
  | some s => execTimeFormat (pyTrunc (endTime - s))

/-- Environment of the timed model: the successive values returned by
time.time() (clock, indexed by the number of prior time.time() calls) and the
task outcomes. -/
structure TimedEnv where
  clock : Nat → ℚ
  taskFails : Nat → Bool

/-- Timing skeleton shared verbatim by BotRunnerMaestro.run (lines 306-313)
and BotRunnerLocal.run (lines 614-624): at the top of every loop iteration
self.start_time is assigned a fresh time.time() reading (one clock tick);
after the task function returns, _get_execution_time reads time.time() again
(a second tick) and reports against the current start_time.  Failing
iterations consume exactly one tick (the except handler reads no clock).
Arguments: attempts counter i, tick counter, the start_time field carried
across iterations, remaining fuel.  Returns the successful attempt's index
and its reported execution-time string, or none when the loop re-raises.
The further time.time() reading inside _insert_database_log_execution occurs
after the report and is not modelled. -/
def runTimedAux (maxRetries : Nat) (env : TimedEnv) :
    Nat → Nat → Option ℚ → Nat → Option (Nat × String)
  | _, _, _, 0 => none
  | i, tick, _st, g + 1 =>
    let st := some (env.clock tick)
    if env.taskFails i then
      if maxRetries < i + 1 then none
      else runTimedAux maxRetries env (i + 1) (tick + 1) st g
    else
      some (i, getExecutionTime st (env.clock (tick + 1)))

/-- The timed model of a whole run. -/
def runTimed (maxRetries : Nat) (env : TimedEnv) : Option (Nat × String) :=
  runTimedAux maxRetries env 0 0 none (maxRetries + 1)



/-! ## Basic lemmas about traces and counting -/

theorem callSeq_benign (env : Env) (hb : Benign env) (i : Nat) :
    ∀ sites : List Site, callSeq env i sites = (sites.map Ev.call, none) := by
  intro sites
  induction sites with
  | nil => rfl
  | cons s rest ih => simp [callSeq, hb i s, ih]

theorem countTask_append (a b : List Ev) :
    countTask (a ++ b) = countTask a + countTask b := List.countP_append _ _ _

theorem countSite_append (s : Site) (a b : List Ev) :
    countSite s (a ++ b) = countSite s a + countSite s b := List.countP_append _ _ _

theorem countTask_cons_task (i : Nat) (l : List Ev) :
    countTask (Ev.task i :: l) = countTask l + 1 := by
  simp [countTask, List.countP_cons, isTaskEv]

theorem countSite_cons_task (s : Site) (i : Nat) (l : List Ev) :
    countSite s (Ev.task i :: l) = countSite s l := by
  simp [countSite, List.countP_cons]

/-! ## One-iteration characterizations under a benign environment -/

theorem iterMaestro_success (mr : Nat) (useTg : Bool) (env : Env) (i : Nat)
    (hb : Benign env) (ht : env.taskFails i = false) :
    iterMaestro mr useTg env i =
      (Ev.task i :: ((maestroSuccessSites useTg).map Ev.call ++ [Ev.call Site.addLogFile]),
        IterOut.broke) := by
  simp [iterMaestro, tryBodyMaestro, ht, callSeq_benign env hb i, hb i Site.addLogFile]

theorem iterMaestro_fail_retry (mr : Nat) (useTg : Bool) (env : Env) (i : Nat)
    (hb : Benign env) (ht : env.taskFails i = true) (hi : i + 1 ≤ mr) :
    iterMaestro mr useTg env i =
      (Ev.task i :: ((maestroExceptSites useTg).map Ev.call ++ [Ev.call Site.addLogFile]),
        IterOut.retry) := by
  have hlt : ¬ mr < i + 1 := by omega
  simp [iterMaestro, tryBodyMaestro, handlerMaestro, ht, hlt,
    callSeq_benign env hb i, hb i Site.addLogFile]

theorem iterMaestro_fail_last (mr : Nat) (useTg : Bool) (env : Env) (i : Nat)
    (hb : Benign env) (ht : env.taskFails i = true) (hi : mr < i + 1) :
    iterMaestro mr useTg env i =
      (Ev.task i :: ((maestroExceptSites useTg).map Ev.call ++
          ([Site.listFoldersF, Site.uploadFilesF].map Ev.call ++ [Ev.call Site.addLogFile])),
        IterOut.raised (Err.task i)) := by
  simp [iterMaestro, tryBodyMaestro, handlerMaestro, ht, hi,
    callSeq_benign env hb i, hb i Site.addLogFile]

theorem iterLocal_success (mr : Nat) (useTg : Bool) (env : Env) (i : Nat)
    (hb : Benign env) (ht : env.taskFails i = false) :
    iterLocal mr useTg env i =
      (Ev.task i :: (localSuccessSites useTg).map Ev.call, IterOut.broke) := by
  simp [iterLocal, tryBodyLocal, ht, callSeq_benign env hb i]

theorem iterLocal_fail_retry (mr : Nat) (useTg : Bool) (env : Env) (i : Nat)
    (hb : Benign env) (ht : env.taskFails i = true) (hi : i + 1 ≤ mr) :
    iterLocal mr useTg env i =
      (Ev.task i :: (localExceptSites useTg).map Ev.call, IterOut.retry) := by
  have hlt : ¬ mr < i + 1 := by omega
  simp [iterLocal, tryBodyLocal, handlerLocal, ht, hlt, callSeq_benign env hb i]

theorem iterLocal_fail_last (mr : Nat) (useTg : Bool) (env : Env) (i : Nat)
    (hb : Benign env) (ht : env.taskFails i = true) (hi : mr < i + 1) :
    iterLocal mr useTg env i =
      (Ev.task i :: (localExceptSites useTg).map Ev.call, IterOut.raised (Err.task i)) := by
  simp [iterLocal, tryBodyLocal, handlerLocal, ht, hi, callSeq_benign env hb i]

/-! ## Event counts of single iterations -/

theorem counts_iterMaestro_success (useTg : Bool) (i : Nat) :
    countTask (Ev.task i :: ((maestroSuccessSites useTg).map Ev.call ++
      [Ev.call Site.addLogFile])) = 1 ∧
    countSite Site.finishTaskSuccess (Ev.task i :: ((maestroSuccessSites useTg).map Ev.call ++
      [Ev.call Site.addLogFile])) = 1 ∧
    countSite Site.finishTaskFailed (Ev.task i :: ((maestroSuccessSites useTg).map Ev.call ++
      [Ev.call Site.addLogFile])) = 0 ∧
    countSite Site.addLogFile (Ev.task i :: ((maestroSuccessSites useTg).map Ev.call ++
      [Ev.call Site.addLogFile])) = 1 := by
  refine ⟨?_, ?_, ?_, ?_⟩
  · rw [countTask_cons_task]; cases useTg <;> decide
  · rw [countSite_cons_task]; cases useTg <;> decide
  · rw [countSite_cons_task]; cases useTg <;> decide
  · rw [countSite_cons_task]; cases useTg <;> decide

theorem counts_iterMaestro_retry (useTg : Bool) (i : Nat) :
    countTask (Ev.task i :: ((maestroExceptSites useTg).map Ev.call ++
      [Ev.call Site.addLogFile])) = 1 ∧
    countSite Site.finishTaskSuccess (Ev.task i :: ((maestroExceptSites useTg).map Ev.call ++
      [Ev.call Site.addLogFile])) = 0 ∧
    countSite Site.finishTaskFailed (Ev.task i :: ((maestroExceptSites useTg).map Ev.call ++
      [Ev.call Site.addLogFile])) = 1 ∧
    countSite Site.addLogFile (Ev.task i :: ((maestroExceptSites useTg).map Ev.call ++
      [Ev.call Site.addLogFile])) = 1 := by
  refine ⟨?_, ?_, ?_, ?_⟩
  · rw [countTask_cons_task]; cases useTg <;> decide
  · rw [countSite_cons_task]; cases useTg <;> decide
  · rw [countSite_cons_task]; cases useTg <;> decide
  · rw [countSite_cons_task]; cases useTg <;> decide

theorem counts_iterMaestro_last (useTg : Bool) (i : Nat) :
    countTask (Ev.task i :: ((maestroExceptSites useTg).map Ev.call ++
      ([Site.listFoldersF, Site.uploadFilesF].map Ev.call ++ [Ev.call Site.addLogFile]))) = 1 ∧
    countSite Site.finishTaskSuccess (Ev.task i :: ((maestroExceptSites useTg).map Ev.call ++
      ([Site.listFoldersF, Site.uploadFilesF].map Ev.call ++ [Ev.call Site.addLogFile]))) = 0 ∧
    countSite Site.finishTaskFailed (Ev.task i :: ((maestroExceptSites useTg).map Ev.call ++
      ([Site.listFoldersF, Site.uploadFilesF].map Ev.call ++ [Ev.call Site.addLogFile]))) = 1 ∧
    countSite Site.addLogFile (Ev.task i :: ((maestroExceptSites useTg).map Ev.call ++
      ([Site.listFoldersF, Site.uploadFilesF].map Ev.call ++ [Ev.call Site.addLogFile]))) = 1 := by
  refine ⟨?_, ?_, ?_, ?_⟩
  · rw [countTask_cons_task]; cases useTg <;> decide
  · rw [countSite_cons_task]; cases useTg <;> decide
  · rw [countSite_cons_task]; cases useTg <;> decide
  · rw [countSite_cons_task]; cases useTg <;> decide

theorem counts_iterLocal_success (useTg : Bool) (i : Nat) :
    countTask (Ev.task i :: (localSuccessSites useTg).map Ev.call) = 1 ∧
    countSite Site.addLogFile (Ev.task i :: (localSuccessSites useTg).map Ev.call) = 0 := by
  refine ⟨?_, ?_⟩
  · rw [countTask_cons_task]; cases useTg <;> decide
  · rw [countSite_cons_task]; cases useTg <;> decide

theorem counts_iterLocal_fail (useTg : Bool) (i : Nat) :
    countTask (Ev.task i :: (localExceptSites useTg).map Ev.call) = 1 ∧
    countSite Site.addLogFile (Ev.task i :: (localExceptSites useTg).map Ev.call) = 0 := by
  refine ⟨?_, ?_⟩
  · rw [countTask_cons_task]; cases useTg <;> decide
  · rw [countSite_cons_task]; cases useTg <;> decide

/-! ## Whole-run characterization under a benign environment

For a run started at attempts = i with fuel g = maxRetries + 1 - i, either
some attempt k succeeds (all earlier invoked attempts having failed) and the
run returns normally, or every attempt up to maxRetries fails and the run
re-raises the last attempt's error.  Event counts are characterized in both
cases. -/

theorem runMaestroAux_benign (mr : Nat) (useTg : Bool) (env : Env) (hb : Benign env) :
    ∀ g i, i + g = mr + 1 → 1 ≤ g →
      (∃ k, i ≤ k ∧ k ≤ mr ∧ (∀ j, i ≤ j → j < k → env.taskFails j = true) ∧
        env.taskFails k = false ∧
        (runMaestroAux mr useTg env i g).2 = Except.ok () ∧
        countTask (runMaestroAux mr useTg env i g).1 = k + 1 - i ∧
        countSite Site.finishTaskSuccess (runMaestroAux mr useTg env i g).1 = 1 ∧
        countSite Site.finishTaskFailed (runMaestroAux mr useTg env i g).1 = k - i ∧
        countSite Site.addLogFile (runMaestroAux mr useTg env i g).1 = k + 1 - i) ∨
      ((∀ j, i ≤ j → j ≤ mr → env.taskFails j = true) ∧
        (runMaestroAux mr useTg env i g).2 = Except.error (Err.task mr) ∧
        countTask (runMaestroAux mr useTg env i g).1 = g ∧
        countSite Site.finishTaskSuccess (runMaestroAux mr useTg env i g).1 = 0 ∧
        countSite Site.finishTaskFailed (runMaestroAux mr useTg env i g).1 = g ∧
        countSite Site.addLogFile (runMaestroAux mr useTg env i g).1 = g) := by
  intro g
  induction g with
  | zero => intro i h1 h2; omega
  | succ g ih =>
    intro i hig _
    cases ht : env.taskFails i with
    | false =>
      have hrun : runMaestroAux mr useTg env i (g + 1) =
          (Ev.task i :: ((maestroSuccessSites useTg).map Ev.call ++ [Ev.call Site.addLogFile]),
            Except.ok ()) := by
        simp [runMaestroAux, iterMaestro_success mr useTg env i hb ht]
      have h1 := congrArg Prod.fst hrun
      have h2 := congrArg Prod.snd hrun
      dsimp only at h1 h2
      obtain ⟨hc1, hc2, hc3, hc4⟩ := counts_iterMaestro_success useTg i
      refine Or.inl ⟨i, Nat.le_refl i, by omega, ?_, ht, ?_, ?_, ?_, ?_, ?_⟩
      · intro j hj1 hj2; omega
      · exact h2
      · rw [h1, hc1] <;> omega
      · rw [h1, hc2]
      · rw [h1, hc3] <;> omega
      · rw [h1, hc4] <;> omega
    | true =>
      by_cases hlast : mr < i + 1
      · have him : i = mr := by omega
        have hrun : runMaestroAux mr useTg env i (g + 1) =
            (Ev.task i :: ((maestroExceptSites useTg).map Ev.call ++
              ([Site.listFoldersF, Site.uploadFilesF].map Ev.call ++ [Ev.call Site.addLogFile])),
              Except.error (Err.task i)) := by
          simp [runMaestroAux, iterMaestro_fail_last mr useTg env i hb ht hlast]
        have h1 := congrArg Prod.fst hrun
        have h2 := congrArg Prod.snd hrun
        dsimp only at h1 h2
        obtain ⟨hc1, hc2, hc3, hc4⟩ := counts_iterMaestro_last useTg i
        refine Or.inr ⟨?_, ?_, ?_, ?_, ?_, ?_⟩
        · intro j hj1 hj2
          have hji : j = i := by omega
          rw [hji]; exact ht
        · rw [h2, him]
        · rw [h1, hc1] <;> omega
        · rw [h1, hc2]
        · rw [h1, hc3] <;> omega
        · rw [h1, hc4] <;> omega
      · have hi1 : i + 1 ≤ mr := by omega
        have hrun : runMaestroAux mr useTg env i (g + 1) =
            ((Ev.task i :: ((maestroExceptSites useTg).map Ev.call ++
                [Ev.call Site.addLogFile])) ++ (runMaestroAux mr useTg env (i + 1) g).1,
              (runMaestroAux mr useTg env (i + 1) g).2) := by
          simp [runMaestroAux, iterMaestro_fail_retry mr useTg env i hb ht hi1]
        have h1 := congrArg Prod.fst hrun
        have h2 := congrArg Prod.snd hrun
        dsimp only at h1 h2
        obtain ⟨hc1, hc2, hc3, hc4⟩ := counts_iterMaestro_retry useTg i
        rcases ih (i + 1) (by omega) (by omega) with
          ⟨k, hk1, hk2, hk3, hk4, hr, hn1, hn2, hn3, hn4⟩ |
          ⟨hall, hr, hn1, hn2, hn3, hn4⟩
        · refine Or.inl ⟨k, by omega, hk2, ?_, hk4, ?_, ?_, ?_, ?_, ?_⟩
          · intro j hj1 hj2
            rcases Nat.lt_or_ge j (i + 1) with h | h
            · have hji : j = i := by omega
              rw [hji]; exact ht
            · exact hk3 j h hj2
          · rw [h2]; exact hr
          · rw [h1, countTask_append, hc1, hn1] <;> omega
          · rw [h1, countSite_append, hc2, hn2] <;> omega
          · rw [h1, countSite_append, hc3, hn3] <;> omega
          · rw [h1, countSite_append, hc4, hn4] <;> omega
        · refine Or.inr ⟨?_, ?_, ?_, ?_, ?_, ?_⟩
          · intro j hj1 hj2
            rcases Nat.lt_or_ge j (i + 1) with h | h
            · have hji : j = i := by omega
              rw [hji]; exact ht
            · exact hall j h hj2
          · rw [h2]; exact hr
          · rw [h1, countTask_append, hc1, hn1] <;> omega
          · rw [h1, countSite_append, hc2, hn2] <;> omega
          · rw [h1, countSite_append, hc3, hn3] <;> omega
          · rw [h1, countSite_append, hc4, hn4] <;> omega

theorem runLocalAux_benign (mr : Nat) (useTg : Bool) (env : Env) (hb : Benign env) :
    ∀ g i, i + g = mr + 1 → 1 ≤ g →
      (∃ k, i ≤ k ∧ k ≤ mr ∧ (∀ j, i ≤ j → j < k → env.taskFails j = true) ∧
        env.taskFails k = false ∧
        (runLocalAux mr useTg env i g).2 = Except.ok () ∧
        countTask (runLocalAux mr useTg env i g).1 = k + 1 - i ∧
        countSite Site.addLogFile (runLocalAux mr useTg env i g).1 = 0) ∨
      ((∀ j, i ≤ j → j ≤ mr → env.taskFails j = true) ∧
        (runLocalAux mr useTg env i g).2 = Except.error (Err.task mr) ∧
        countTask (runLocalAux mr useTg env i g).1 = g ∧
        countSite Site.addLogFile (runLocalAux mr useTg env i g).1 = 0) := by
  intro g
  induction g with
  | zero => intro i h1 h2; omega
  | succ g ih =>
    intro i hig _
    cases ht : env.taskFails i with
    | false =>
      have hrun : runLocalAux mr useTg env i (g + 1) =
          (Ev.task i :: (localSuccessSites useTg).map Ev.call, Except.ok ()) := by
        simp [runLocalAux, iterLocal_success mr useTg env i hb ht]
      have h1 := congrArg Prod.fst hrun
      have h2 := congrArg Prod.snd hrun
      dsimp only at h1 h2
      obtain ⟨hc1, hc2⟩ := counts_iterLocal_success useTg i
      refine Or.inl ⟨i, Nat.le_refl i, by omega, ?_, ht, ?_, ?_, ?_⟩
      · intro j hj1 hj2; omega
      · exact h2
      · rw [h1, hc1] <;> omega
      · rw [h1, hc2]
    | true =>
      by_cases hlast : mr < i + 1
      · have him : i = mr := by omega
        have hrun : runLocalAux mr useTg env i (g + 1) =
            (Ev.task i :: (localExceptSites useTg).map Ev.call,
              Except.error (Err.task i)) := by
          simp [runLocalAux, iterLocal_fail_last mr useTg env i hb ht hlast]
        have h1 := congrArg Prod.fst hrun
        have h2 := congrArg Prod.snd hrun
        dsimp only at h1 h2
        obtain ⟨hc1, hc2⟩ := counts_iterLocal_fail useTg i
        refine Or.inr ⟨?_, ?_, ?_, ?_⟩
        · intro j hj1 hj2
          have hji : j = i := by omega
          rw [hji]; exact ht
        · rw [h2, him]
        · rw [h1, hc1] <;> omega
        · rw [h1, hc2]
      · have hi1 : i + 1 ≤ mr := by omega
        have hrun : runLocalAux mr useTg env i (g + 1) =
            ((Ev.task i :: (localExceptSites useTg).map Ev.call) ++
                (runLocalAux mr useTg env (i + 1) g).1,
              (runLocalAux mr useTg env (i + 1) g).2) := by
          simp [runLocalAux, iterLocal_fail_retry mr useTg env i hb ht hi1]
        have h1 := congrArg Prod.fst hrun
        have h2 := congrArg Prod.snd hrun
        dsimp only at h1 h2
        obtain ⟨hc1, hc2⟩ := counts_iterLocal_fail useTg i
        rcases ih (i + 1) (by omega) (by omega) with
          ⟨k, hk1, hk2, hk3, hk4, hr, hn1, hn2⟩ | ⟨hall, hr, hn1, hn2⟩
        · refine Or.inl ⟨k, by omega, hk2, ?_, hk4, ?_, ?_, ?_⟩
          · intro j hj1 hj2
            rcases Nat.lt_or_ge j (i + 1) with h | h
            · have hji : j = i := by omega
              rw [hji]; exact ht
            · exact hk3 j h hj2
          · rw [h2]; exact hr
          · rw [h1, countTask_append, hc1, hn1] <;> omega
          · rw [h1, countSite_append, hc2, hn2] <;> omega
        · refine Or.inr ⟨?_, ?_, ?_, ?_⟩
          · intro j hj1 hj2
            rcases Nat.lt_or_ge j (i + 1) with h | h
            · have hji : j = i := by omega
              rw [hji]; exact ht
            · exact hall j h hj2
          · rw [h2]; exact hr
          · rw [h1, countTask_append, hc1, hn1] <;> omega
          · rw [h1, countSite_append, hc2, hn2] <;> omega


/-! ## Concrete environments used by witnesses and counterexamples -/

/-- The task function raises on every invocation; no collaborator call raises. -/
def envAllFail : Env := ⟨fun _ => true, fun _ _ => false⟩

/-- The task raises on attempt 0 and succeeds on attempt 1; no collaborator
call raises. -/
def envFailOnce : Env := ⟨fun i => decide (i = 0), fun _ _ => false⟩

/-- The task raises on attempts 0 and 1 and succeeds from attempt 2 on; no
collaborator call raises. -/
def envFailTwice : Env := ⟨fun i => decide (i < 2), fun _ _ => false⟩

/-- Nothing raises. -/
def envAllOk : Env := ⟨fun _ => false, fun _ _ => false⟩

/-- The task always succeeds, but the success-path SharePoint upload_files
call raises during iteration 0; nothing else raises. -/
def envUploadFailsOnce : Env :=
  ⟨fun _ => false, fun i s => decide (i = 0 ∧ s = Site.uploadFilesS)⟩

/-- The task always raises, and the maestro.error call in the except handler
raises during iteration 0; no other collaborator call raises. -/
def envHandlerError : Env :=
  ⟨fun _ => true, fun i s => decide (i = 0 ∧ s = Site.maestroError)⟩

/-- Timed environment: the j-th time.time() reading is 7j, and the task
fails on attempt 0 and succeeds on attempt 1. -/
def envTimedW : TimedEnv := ⟨fun t => (t : ℚ) * 7, fun i => decide (i < 1)⟩

/-! ## Claims -/

/-- C1: For every max_retries = N >= 0, if the task function raises an error
on every invocation (no collaborator call raising), then run() -- in both
BotRunnerMaestro and BotRunnerLocal -- invokes the task function exactly
N + 1 times and then propagates the error of the last attempt (attempt N) to
the caller. -/
theorem c1_always_failing_task (mr : Nat) (useTg : Bool) (env : Env)
    (hb : Benign env) (hf : ∀ j, env.taskFails j = true) :
    (runMaestro mr useTg env).2 = Except.error (Err.task mr) ∧
    countTask (runMaestro mr useTg env).1 = mr + 1 ∧
    (runLocal mr useTg env).2 = Except.error (Err.task mr) ∧
    countTask (runLocal mr useTg env).1 = mr + 1 := by
  have hm := runMaestroAux_benign mr useTg env hb (mr + 1) 0 (by omega) (by omega)
  have hl := runLocalAux_benign mr useTg env hb (mr + 1) 0 (by omega) (by omega)
  rcases hm with ⟨k, -, -, -, hk4, -, -, -, -, -⟩ | ⟨-, hmr, hmn, -, -, -⟩
  · rw [hf k] at hk4; simp at hk4
  rcases hl with ⟨k, -, -, -, hk4, -, -, -⟩ | ⟨-, hlr, hln, -⟩
  · rw [hf k] at hk4; simp at hk4
  exact ⟨hmr, hmn, hlr, hln⟩

/-- Witness for C1 at max_retries = 1. -/
theorem c1_witness :
    (runMaestro 1 false envAllFail).2 = Except.error (Err.task 1) ∧
    countTask (runMaestro 1 false envAllFail).1 = 1 + 1 ∧
    (runLocal 1 false envAllFail).2 = Except.error (Err.task 1) ∧
    countTask (runLocal 1 false envAllFail).1 = 1 + 1 :=
  c1_always_failing_task 1 false envAllFail (fun _ _ => rfl) (fun _ => rfl)

/-- C3: For every max_retries = N >= 0 and k <= N, if the task function
raises on its first k invocations and succeeds on invocation k + 1, then
run() -- in both variants -- invokes the task function exactly k + 1 times
and returns normally. -/
theorem c3_eventual_success (mr k : Nat) (useTg : Bool) (env : Env)
    (hb : Benign env) (hk : k ≤ mr) (hf : ∀ j, j < k → env.taskFails j = true)
    (hs : env.taskFails k = false) :
    (runMaestro mr useTg env).2 = Except.ok () ∧
    countTask (runMaestro mr useTg env).1 = k + 1 ∧
    (runLocal mr useTg env).2 = Except.ok () ∧
    countTask (runLocal mr useTg env).1 = k + 1 := by
  simp only [runMaestro, runLocal]
  have hm := runMaestroAux_benign mr useTg env hb (mr + 1) 0 (by omega) (by omega)
  have hl := runLocalAux_benign mr useTg env hb (mr + 1) 0 (by omega) (by omega)
  rcases hm with ⟨k1, -, -, hp1, hq1, hmr, hmn, -, -, -⟩ | ⟨hall, -, -, -, -, -⟩
  · rcases hl with ⟨k2, -, -, hp2, hq2, hlr, hln, -⟩ | ⟨hall, -, -, -⟩
    · have e1 : k1 = k := by
        rcases Nat.lt_trichotomy k1 k with h | h | h
        · exact absurd hq1 (by simp [hf k1 h])
        · exact h
        · exact absurd hs (by simp [hp1 k (Nat.zero_le k) h])
      have e2 : k2 = k := by
        rcases Nat.lt_trichotomy k2 k with h | h | h
        · exact absurd hq2 (by simp [hf k2 h])
        · exact h
        · exact absurd hs (by simp [hp2 k (Nat.zero_le k) h])
      subst e1; subst e2
      refine ⟨hmr, ?_, hlr, ?_⟩
      · rw [hmn]; omega
      · rw [hln]; omega
    · exact absurd hs (by simp [hall k (Nat.zero_le k) hk])
  · exact absurd hs (by simp [hall k (Nat.zero_le k) hk])

/-- Witness for C3 at max_retries = 3, k = 2. -/
theorem c3_witness :
    (runMaestro 3 false envFailTwice).2 = Except.ok () ∧
    countTask (runMaestro 3 false envFailTwice).1 = 2 + 1 ∧
    (runLocal 3 false envFailTwice).2 = Except.ok () ∧
    countTask (runLocal 3 false envFailTwice).1 = 2 + 1 :=
  c3_eventual_success 3 2 false envFailTwice (fun _ _ => rfl) (by decide)
    (fun j hj => decide_eq_true hj) (by decide)

/-- C2 counterexample: with max_retries = 1 and a task that fails on attempt
0 then succeeds on attempt 1, BotRunnerMaestro.run calls finish_task twice
(once with FAILED from the failed attempt's except handler, once with
SUCCESS), even though the run ends in success -- refuting "finish_task is
called exactly once per run() invocation, with FAILED iff all attempts
failed". -/
theorem c2_counterexample :
    countSite Site.finishTaskSuccess (runMaestro 1 false envFailOnce).1 +
      countSite Site.finishTaskFailed (runMaestro 1 false envFailOnce).1 = 2 ∧
    (runMaestro 1 false envFailOnce).2 = Except.ok () :=
  ⟨by decide, rfl⟩

/-- C2 (amended): in BotRunnerMaestro.run under a benign environment,
finish_task is called with SUCCESS exactly once iff the run returns
normally (zero times otherwise), and it is called with FAILED once per
failed attempt, i.e. the FAILED count equals the number of task invocations
minus the SUCCESS count.  finish_task is thus called once per attempt that
fails plus once on eventual success, not once per run() invocation. -/
theorem c2_finish_task_calls (mr : Nat) (useTg : Bool) (env : Env) (hb : Benign env) :
    ((runMaestro mr useTg env).2 = Except.ok () →
      countSite Site.finishTaskSuccess (runMaestro mr useTg env).1 = 1) ∧
    ((runMaestro mr useTg env).2 ≠ Except.ok () →
      countSite Site.finishTaskSuccess (runMaestro mr useTg env).1 = 0) ∧
    countSite Site.finishTaskFailed (runMaestro mr useTg env).1 =
      countTask (runMaestro mr useTg env).1 -
        countSite Site.finishTaskSuccess (runMaestro mr useTg env).1 := by
  simp only [runMaestro]
  have hm := runMaestroAux_benign mr useTg env hb (mr + 1) 0 (by omega) (by omega)
  rcases hm with ⟨k, -, -, -, -, hr, hn1, hn2, hn3, -⟩ | ⟨-, hr, hn1, hn2, hn3, -⟩
  · refine ⟨fun _ => hn2, fun hne => absurd hr hne, ?_⟩
    rw [hn3, hn1, hn2]
    omega
  · refine ⟨fun hok => ?_, fun _ => hn2, ?_⟩
    · rw [hr] at hok; simp at hok
    · rw [hn3, hn1, hn2]
      omega

/-- Witness for the amended C2 at max_retries = 1 with one failure then
success. -/
theorem c2_witness :
    ((runMaestro 1 false envFailOnce).2 = Except.ok () →
      countSite Site.finishTaskSuccess (runMaestro 1 false envFailOnce).1 = 1) ∧
    ((runMaestro 1 false envFailOnce).2 ≠ Except.ok () →
      countSite Site.finishTaskSuccess (runMaestro 1 false envFailOnce).1 = 0) ∧
    countSite Site.finishTaskFailed (runMaestro 1 false envFailOnce).1 =
      countTask (runMaestro 1 false envFailOnce).1 -
        countSite Site.finishTaskSuccess (runMaestro 1 false envFailOnce).1 :=
  c2_finish_task_calls 1 false envFailOnce (fun _ _ => rfl)

/-- C4 counterexample: in BotRunnerLocal.run with max_retries = 0 and a task
that succeeds, the task function is invoked once but the log-file artifact
upload to the orchestrator never happens (BotRunnerLocal.run has no finally
clause and never calls _add_log_file_into_maestro), so the artifact-flush
count does not equal the task-invocation count. -/
theorem c4_counterexample :
    countTask (runLocal 0 false envAllOk).1 = 1 ∧
    countSite Site.addLogFile (runLocal 0 false envAllOk).1 = 0 ∧
    countSite Site.addLogFile (runLocal 0 false envAllOk).1 ≠
      countTask (runLocal 0 false envAllOk).1 :=
  ⟨by decide, by decide, by decide⟩

/-- C4 (amended): the once-per-attempt artifact flush holds for
BotRunnerMaestro.run only: under a benign environment its
_add_log_file_into_maestro count equals its task-invocation count (the
finally clause runs once per iteration), while BotRunnerLocal.run performs
no artifact flush at all. -/
theorem c4_flush_per_attempt (mr : Nat) (useTg : Bool) (env : Env) (hb : Benign env) :
    countSite Site.addLogFile (runMaestro mr useTg env).1 =
      countTask (runMaestro mr useTg env).1 ∧
    countSite Site.addLogFile (runLocal mr useTg env).1 = 0 := by
  simp only [runMaestro, runLocal]
  have hm := runMaestroAux_benign mr useTg env hb (mr + 1) 0 (by omega) (by omega)
  have hl := runLocalAux_benign mr useTg env hb (mr + 1) 0 (by omega) (by omega)
  constructor
  · rcases hm with ⟨k, -, -, -, -, -, hn1, -, -, hn4⟩ | ⟨-, -, hn1, -, -, hn4⟩ <;>
      rw [hn1, hn4]
  · rcases hl with ⟨k, -, -, -, -, -, -, hn2⟩ | ⟨-, -, -, hn2⟩ <;> exact hn2

/-- Witness for the amended C4 at max_retries = 1 with one failure then
success. -/
theorem c4_witness :
    countSite Site.addLogFile (runMaestro 1 false envFailOnce).1 =
      countTask (runMaestro 1 false envFailOnce).1 ∧
    countSite Site.addLogFile (runLocal 1 false envFailOnce).1 = 0 :=
  c4_flush_per_attempt 1 false envFailOnce (fun _ _ => rfl)

/-- C5 counterexample: for the same environment (task succeeds immediately,
no collaborator failure) and max_retries = 0, the two run variants perform
different collaborator call sequences: BotRunnerMaestro.run issues the
finish_task SUCCESS call and the finally artifact upload, BotRunnerLocal.run
does not, so their side-effect traces differ. -/
theorem c5_counterexample :
    (runMaestro 0 false envAllOk).1 ≠ (runLocal 0 false envAllOk).1 := by decide

/-- C5 (amended): the two variants share the retry/termination contract --
for the same task outcomes and max_retries, under a benign environment they
invoke the task function the same number of times and produce the same
terminal result -- but their collaborator side effects differ (Local omits
the orchestrator error/finish_task calls and the artifact flush). -/
theorem c5_same_retry_contract (mr : Nat) (useTg : Bool) (env : Env) (hb : Benign env) :
    countTask (runMaestro mr useTg env).1 = countTask (runLocal mr useTg env).1 ∧
    (runMaestro mr useTg env).2 = (runLocal mr useTg env).2 := by
  simp only [runMaestro, runLocal]
  have hm := runMaestroAux_benign mr useTg env hb (mr + 1) 0 (by omega) (by omega)
  have hl := runLocalAux_benign mr useTg env hb (mr + 1) 0 (by omega) (by omega)
  rcases hm with ⟨k1, -, hkm1, hp1, hq1, hmr, hmn, -, -, -⟩ | ⟨hall1, hmr, hmn, -, -, -⟩
  · rcases hl with ⟨k2, -, -, hp2, hq2, hlr, hln, -⟩ | ⟨hall2, -, -, -⟩
    · have e : k2 = k1 := by
        rcases Nat.lt_trichotomy k2 k1 with h | h | h
        · exact absurd hq2 (by simp [hp1 k2 (Nat.zero_le k2) h])
        · exact h
        · exact absurd hq1 (by simp [hp2 k1 (Nat.zero_le k1) h])
      subst e
      constructor
      · rw [hmn, hln]
      · rw [hmr, hlr]
    · exact absurd hq1 (by simp [hall2 k1 (Nat.zero_le k1) hkm1])
  · rcases hl with ⟨k2, -, hkm2, hp2, hq2, -, -, -⟩ | ⟨hall2, hlr, hln, -⟩
    · exact absurd hq2 (by simp [hall1 k2 (Nat.zero_le k2) hkm2])
    · constructor
      · rw [hmn, hln]
      · rw [hmr, hlr]

/-- Witness for the amended C5 at max_retries = 1 with one failure then
success. -/
theorem c5_witness :
    countTask (runMaestro 1 false envFailOnce).1 =
      countTask (runLocal 1 false envFailOnce).1 ∧
    (runMaestro 1 false envFailOnce).2 = (runLocal 1 false envFailOnce).2 :=
  c5_same_retry_contract 1 false envFailOnce (fun _ _ => rfl)

/-- C6 counterexample: with max_retries = 1, a SharePoint upload_files error
on the success path of attempt 0 is caught by BotRunnerMaestro.run's except
handler, the whole attempt is retried, and run() returns normally.  The
reporting-collaborator error was both retried and suppressed, refuting the
claim that such errors always propagate to run()'s caller. -/
theorem c6_counterexample :
    (runMaestro 1 false envUploadFailsOnce).2 = Except.ok () ∧
    countTask (runMaestro 1 false envUploadFailsOnce).1 = 2 :=
  ⟨rfl, by decide⟩

/-- C6 (amended): a reporting-collaborator error raised inside the except
handler or the finally clause is neither retried nor suppressed and masks
the original task error: if the task raises on attempt 0 and the
maestro.error call raises in the handler (the finally upload not raising),
BotRunnerMaestro.run propagates the maestro.error failure -- not the task's
error -- after a single task invocation, for every max_retries.  (A
collaborator error on the success path inside the try block is instead
caught like a task failure and consumes a retry.) -/
theorem c6_reporting_error_masks (mr : Nat) (useTg : Bool) (env : Env)
    (ht : env.taskFails 0 = true)
    (hm : env.callFails 0 Site.maestroError = true)
    (hfl : env.callFails 0 Site.addLogFile = false) :
    (runMaestro mr useTg env).2 = Except.error (Err.collab Site.maestroError 0) ∧
    countTask (runMaestro mr useTg env).1 = 1 := by
  have hrun : runMaestro mr useTg env =
      ([Ev.task 0, Ev.call Site.maestroError, Ev.call Site.addLogFile],
        Except.error (Err.collab Site.maestroError 0)) := by
    simp [runMaestro, runMaestroAux, iterMaestro, tryBodyMaestro, handlerMaestro,
      maestroExceptSites, callSeq, ht, hm, hfl]
  constructor
  · rw [hrun]
  · rw [hrun]; decide

/-- Witness for the amended C6 at max_retries = 2. -/
theorem c6_witness :
    (runMaestro 2 false envHandlerError).2 =
      Except.error (Err.collab Site.maestroError 0) ∧
    countTask (runMaestro 2 false envHandlerError).1 = 1 :=
  c6_reporting_error_masks 2 false envHandlerError rfl (by decide) (by decide)

/-- C7: constructing a runner with use_telegram = true and telegram_group
omitted (None) or empty raises ValueError, so no runner object exists and
run() is never reached (no task attempt can occur). -/
theorem c7_telegram_group_required (g : Option String) (mr : Nat)
    (h : g = none ∨ g = some "") :
    initRunner true g mr = Except.error InitErr.valueError := by
  rcases h with h | h <;> subst h <;> rfl

/-- Witness for C7 with telegram_group = None. -/
theorem c7_witness : initRunner true none 0 = Except.error InitErr.valueError :=
  c7_telegram_group_required none 0 (Or.inl rfl)

/-- C8: the execution-time computation formats the integer-truncated elapsed
seconds as zero-padded DD:HH:MM:SS; for every start/end pair with truncated
difference 90061 the result is "01:01:01:01", and for difference 0 it is
"00:00:00:00". -/
theorem c8_execution_time_format :
    (∀ s e : ℚ, pyTrunc (e - s) = 90061 →
      getExecutionTime (some s) e = "01:01:01:01") ∧
    (∀ s e : ℚ, pyTrunc (e - s) = 0 →
      getExecutionTime (some s) e = "00:00:00:00") := by
  constructor
  · intro s e h
    show execTimeFormat (pyTrunc (e - s)) = _
    rw [h]
    decide
  · intro s e h
    show execTimeFormat (pyTrunc (e - s)) = _
    rw [h]
    decide

/-- Witness for C8 at start 0 / end 90061 and start 0 / end 0. -/
theorem c8_witness :
    getExecutionTime (some 0) 90061 = "01:01:01:01" ∧
    getExecutionTime (some 0) 0 = "00:00:00:00" :=
  ⟨c8_execution_time_format.1 0 90061 (by norm_num [pyTrunc]),
   c8_execution_time_format.2 0 0 (by norm_num [pyTrunc])⟩

/-- Auxiliary for C9: if the task fails on attempts before k and succeeds at
attempt k, the success report of the timed run uses the start_time assigned
at the top of iteration k (clock tick k) and the end reading at tick k + 1,
whatever value start_time carried before the iteration. -/
theorem runTimedAux_first_success (mr k : Nat) (env : TimedEnv)
    (hk : k ≤ mr) (hf : ∀ j, j < k → env.taskFails j = true)
    (hs : env.taskFails k = false) :
    ∀ g i, i + g = mr + 1 → i ≤ k → ∀ st : Option ℚ,
      runTimedAux mr env i i st g =
        some (k, getExecutionTime (some (env.clock k)) (env.clock (k + 1))) := by
  intro g
  induction g with
  | zero => intro i h1 h2 st; omega
  | succ g ih =>
    intro i h1 h2 st
    by_cases hik : i = k
    · subst hik
      simp [runTimedAux, hs]
    · have hlt : i < k := by omega
      have hnr : ¬ mr < i + 1 := by omega
      simp only [runTimedAux, hf i hlt, hnr, if_true, if_false, ite_false, ite_true]
      exact ih (i + 1) (by omega) (by omega) (some (env.clock i))

/-- C9: the elapsed execution time reported for the successful attempt k is
measured from the start of that attempt only: start_time is reassigned at
the top of every loop iteration, so the report spans clock ticks k and
k + 1 (one tick per preceding failed attempt), never the start of attempt
0. -/
theorem c9_timing_measures_current_attempt (mr k : Nat) (env : TimedEnv)
    (hk : k ≤ mr) (hf : ∀ j, j < k → env.taskFails j = true)
    (hs : env.taskFails k = false) :
    runTimed mr env =
      some (k, execTimeFormat (pyTrunc (env.clock (k + 1) - env.clock k))) :=
  runTimedAux_first_success mr k env hk hf hs (mr + 1) 0 (by omega) (by omega) none

/-- Witness for C9 at max_retries = 1, success on attempt 1. -/
theorem c9_witness :
    runTimed 1 envTimedW =
      some (1, execTimeFormat (pyTrunc (envTimedW.clock 2 - envTimedW.clock 1))) :=
  c9_timing_measures_current_attempt 1 1 envTimedW (by decide)
    (fun j hj => decide_eq_true hj) (by decide)

/-- C10: calling _get_execution_time while start_time is None returns the
sentinel string "Execution time not available" instead of a DD:HH:MM:SS
duration. -/
theorem c10_missing_start_time (e : ℚ) :
    getExecutionTime none e = "Execution time not available" := rfl

end BotRunner
